import Mathlib

/-!
# Verification of the coderunner execution engine

Shallow embedding of the Go sources of `quantinium3/coderunner`:
the per-language execute functions (`internal/execute/executeJS.go`,
`executeGo` in the same package, `executeCPP.go`, `executeJava.go`),
the shared result types (`internal/comphubTypes/comphubTypes.go`),
the HTTP handler `CompileProgram` (package `compilers`) and the
workspace helpers `CreateFile` / `DeleteFile` (package `utils`).

The execute functions drive an external OS process.  The embedding keeps
their control flow exactly and abstracts the OS behaviour into an
explicit environment record (`RunEnv`/`CompileEnv`): which pipe-setup
steps fail, what the process writes to each stream, how `cmd.Wait`
ends.  Each model also returns the Go `error` value (as
`Option String`) and the ordered list of process-spawn events, so that
short-circuiting and "no process was spawned" facts are provable.
-/

namespace Coderunner

/-- `ExecutionRes` from `internal/comphubTypes/comphubTypes.go`:
`struct { Success bool; Error string; Output string }`. -/
structure ExecutionRes where
  Success : Bool
  Error   : String
  Output  : String
deriving DecidableEq, Repr

/-- Failure result as built at every error return of the execute
functions: `Success: false, Error: msg`; `Output` is the Go zero value `""`. -/
def mkFail (msg : String) : ExecutionRes :=
  { Success := false, Error := msg, Output := "" }

/-- Process-spawn events, in the order the execute function performs them:
`compileSpawn` marks the `CombinedOutput()` call of the compile command,
`runStart` marks a successful `cmd.Start()` of the run command. -/
inductive ProcEvent
  | compileSpawn
  | runStart
deriving DecidableEq, Repr

/-- Environment of one run-phase process: which of the fallible OS steps
(`StdinPipe`, `StdoutPipe`, `StderrPipe`, `Start`, the two `io.ReadAll`s)
fail and with what message, the bytes each stream delivered before EOF,
how `cmd.Wait` ended (`waitErr = none` models exit code 0, per Go's
`cmd.Wait` contract), and whether the 10s/15s context deadline fired.
When the deadline fires, `exec.CommandContext` kills the process and
`cmd.Wait` reports the error `signal: killed`. -/
structure RunEnv where
  stdinPipeErr  : Option String
  stdoutPipeErr : Option String
  stderrPipeErr : Option String
  startErr      : Option String
  stdoutReadErr : Option String
  stderrReadErr : Option String
  stdoutBytes   : String
  stderrBytes   : String
  waitErr       : Option String
  timedOut      : Bool
deriving DecidableEq, Repr

/-- The error `cmd.Wait` returns in environment `env`: on context
timeout `exec.CommandContext` has killed the process, so `Wait` yields
`signal: killed`; otherwise whatever the process's own termination
produced (`none` iff exit code 0). -/
def waitErrOf (env : RunEnv) : Option String :=
  if env.timedOut then some "signal: killed" else env.waitErr

/-- Outcome of one execute function: the `ExecutionRes`, the Go `error`
return value, and the ordered process-spawn events. -/
structure ExecOutcome where
  res    : ExecutionRes
  goErr  : Option String
  events : List ProcEvent
deriving DecidableEq, Repr

/-- `ExecuteJS` (`internal/execute/executeJS.go`): runs
`node --no-warnings filename` under a 10s context; stdin is written by a
goroutine; stdout then stderr are read with `io.ReadAll`; then
`cmd.Wait`; non-empty stderr fails the stage even on exit code 0. -/
def ExecuteJS (filename : String) (stdinputs : List String) (env : RunEnv) :
    ExecOutcome :=
  match env.stdinPipeErr with
  | some e => ⟨mkFail ("failed to create stdin pipe: " ++ e), some e, []⟩
  | none =>
  match env.stdoutPipeErr with
  | some e => ⟨mkFail ("failed to create stdout pipe: " ++ e), some e, []⟩
  | none =>
  match env.stderrPipeErr with
  | some e => ⟨mkFail ("failed to create stderr pipe: " ++ e), some e, []⟩
  | none =>
  match env.startErr with
  | some e => ⟨mkFail ("failed to start command: " ++ e), some e, []⟩
  | none =>
  match env.stdoutReadErr with
  | some e => ⟨mkFail ("failed to read stdout: " ++ e), some e, [.runStart]⟩
  | none =>
  match env.stderrReadErr with
  | some e => ⟨mkFail ("failed to read stderr: " ++ e), some e, [.runStart]⟩
  | none =>
  match waitErrOf env with
  | some e =>
      ⟨mkFail ("command execution failed: " ++ e), some e, [.runStart]⟩
  | none =>
      if env.stderrBytes.length > 0 then
        ⟨mkFail env.stderrBytes, some ("stderr: " ++ env.stderrBytes),
          [.runStart]⟩
      else
        ⟨{ Success := true, Error := "", Output := env.stdoutBytes },
          none, [.runStart]⟩

/-- `ExecuteGo` (second function of the `execute` package): runs
`go run filename` under a 10s context, with the same structure as
`ExecuteJS`.  Its start and stdout-read messages use `fmt.Sprint` on a
format string and an error, which concatenates the two without
interpreting the `%v` verb. -/
def ExecuteGo (filename : String) (stdinputs : List String) (env : RunEnv) :
    ExecOutcome :=
  match env.stdinPipeErr with
  | some e => ⟨mkFail ("Failed to create the stdin pipe: " ++ e), some e, []⟩
  | none =>
  match env.stdoutPipeErr with
  | some e => ⟨mkFail ("Failed to create the stdout pipe: " ++ e), some e, []⟩
  | none =>
  match env.stderrPipeErr with
  | some e => ⟨mkFail ("Failed to create the stderr pipe: " ++ e), some e, []⟩
  | none =>
  match env.startErr with
  | some e => ⟨mkFail ("Failed to start the command: %v" ++ e), some e, []⟩
  | none =>
  match env.stdoutReadErr with
  | some e => ⟨mkFail ("Failed to read stdout: %v" ++ e), some e, [.runStart]⟩
  | none =>
  match env.stderrReadErr with
  | some e => ⟨mkFail ("Failed to read stderr: " ++ e), some e, [.runStart]⟩
  | none =>
  match waitErrOf env with
  | some e =>
      ⟨mkFail ("Command execution failed: " ++ e), some e, [.runStart]⟩
  | none =>
      if env.stderrBytes.length > 0 then
        ⟨mkFail env.stderrBytes, some ("stderr: " ++ env.stderrBytes),
          [.runStart]⟩
      else
        ⟨{ Success := true, Error := "", Output := env.stdoutBytes },
          none, [.runStart]⟩

/-- Environment of a compile phase (`CombinedOutput()` of the compile
command): the Go `error` it returned (`none` iff the compiler was found
and exited 0) and the combined stdout+stderr bytes it captured. -/
structure CompileEnv where
  compErr : Option String
  compOut : String
deriving DecidableEq, Repr

/-- The fixed output path of the C++ compile stage,
`executable := "execution_zone/exec_binary"` in `executeCPP.go`:
the same literal for every submission. -/
def cppExecutable : String := "execution_zone/exec_binary"

/-- `ExecuteCPP` (`internal/execute/executeCPP.go`): first
`g++ -o execution_zone/exec_binary filename` via `CombinedOutput()`; on
compile error returns immediately with the error and the combined
output; otherwise runs `./execution_zone/exec_binary` with the same
run-phase structure as `ExecuteJS`. -/
def ExecuteCPP (filename : String) (stdinputs : List String)
    (cenv : CompileEnv) (env : RunEnv) : ExecOutcome :=
  match cenv.compErr with
  | some e =>
      ⟨mkFail ("Compilation Failed :" ++ e ++ "\n" ++ cenv.compOut),
        some e, [.compileSpawn]⟩
  | none =>
  match env.stdinPipeErr with
  | some e =>
      ⟨mkFail ("Failed to create the stdin pipe " ++ e), some e,
        [.compileSpawn]⟩
  | none =>
  match env.stdoutPipeErr with
  | some e =>
      ⟨mkFail ("Failed to create the stdout pipe " ++ e), some e,
        [.compileSpawn]⟩
  | none =>
  match env.stderrPipeErr with
  | some e =>
      ⟨mkFail ("Failed to create the stderr pipe " ++ e), some e,
        [.compileSpawn]⟩
  | none =>
  match env.startErr with
  | some e =>
      ⟨mkFail ("Failed to start command: " ++ e), some e, [.compileSpawn]⟩
  | none =>
  match env.stdoutReadErr with
  | some e =>
      ⟨mkFail ("Failed to read stdout: " ++ e), some e,
        [.compileSpawn, .runStart]⟩
  | none =>
  match env.stderrReadErr with
  | some e =>
      ⟨mkFail ("Failed to read the stderr : " ++ e), some e,
        [.compileSpawn, .runStart]⟩
  | none =>
  match waitErrOf env with
  | some e =>
      ⟨mkFail ("Command execution failed: " ++ e), some e,
        [.compileSpawn, .runStart]⟩
  | none =>
      if env.stderrBytes.length > 0 then
        ⟨mkFail env.stderrBytes, some ("stderr: " ++ env.stderrBytes),
          [.compileSpawn, .runStart]⟩
      else
        ⟨{ Success := true, Error := "", Output := env.stdoutBytes },
          none, [.compileSpawn, .runStart]⟩

/-- `ExecuteJava` (`internal/execute/executeJava.go`): first
`javac filename` via `CombinedOutput()`; on compile error the returned
message carries only the combined output, not the error text; otherwise
runs `java className` (className derived from the file's base name) with
the same run-phase structure, under a 15s context. -/
def ExecuteJava (filename : String) (stdinputs : List String)
    (cenv : CompileEnv) (env : RunEnv) : ExecOutcome :=
  match cenv.compErr with
  | some e =>
      ⟨mkFail ("Compilation failed: " ++ cenv.compOut), some e,
        [.compileSpawn]⟩
  | none =>
  match env.stdinPipeErr with
  | some e =>
      ⟨mkFail ("Failed to create the stdin pipe: " ++ e), some e,
        [.compileSpawn]⟩
  | none =>
  match env.stdoutPipeErr with
  | some e =>
      ⟨mkFail ("Failed to create the stdout pipe: " ++ e), some e,
        [.compileSpawn]⟩
  | none =>
  match env.stderrPipeErr with
  | some e =>
      ⟨mkFail ("Failed to create the stderr pipe: " ++ e), some e,
        [.compileSpawn]⟩
  | none =>
  match env.startErr with
  | some e =>
      ⟨mkFail ("Failed to start the command: " ++ e), some e,
        [.compileSpawn]⟩
  | none =>
  match env.stdoutReadErr with
  | some e =>
      ⟨mkFail ("Failed to read stdout: " ++ e), some e,
        [.compileSpawn, .runStart]⟩
  | none =>
  match env.stderrReadErr with
  | some e =>
      ⟨mkFail ("Failed to read stderr: " ++ e), some e,
        [.compileSpawn, .runStart]⟩
  | none =>
  match waitErrOf env with
  | some e =>
      ⟨mkFail ("Command execution failed: " ++ e), some e,
        [.compileSpawn, .runStart]⟩
  | none =>
      if env.stderrBytes.length > 0 then
        ⟨mkFail env.stderrBytes, some ("stderr: " ++ env.stderrBytes),
          [.compileSpawn, .runStart]⟩
      else
        ⟨{ Success := true, Error := "", Output := env.stdoutBytes },
          none, [.compileSpawn, .runStart]⟩

/-! ## Workspace helpers (`internal/utils`, package `utils`) -/

/-- `createFileRes` from the `utils` package. -/
structure CreateFileRes where
  Success  : Bool
  Error    : String
  Filename : String
deriving DecidableEq, Repr

/-- `CreateFile(code, language)` (package `utils`): ensures the
`execution_zone` directory exists, generates `uuid.NewString() + "." +
language` and writes `code` to `filepath.Join("execution_zone",
filename)`.  The embedding takes the generated UUID and the two fallible
filesystem steps (`os.Mkdir`, `os.WriteFile`) as parameters. -/
def CreateFile (uuid : String) (code : String) (language : String)
    (mkdirOk writeOk : Bool) : CreateFileRes :=
  if ¬ mkdirOk then
    { Success := false, Error := "Directory could not be created",
      Filename := "" }
  else if ¬ writeOk then
    { Success := false, Error := "File could not be created",
      Filename := "" }
  else
    { Success := true, Error := "",
      Filename := "execution_zone/" ++ uuid ++ "." ++ language }

/-- `DeleteFile(fileName)` (package `utils`) as a filesystem
transformer over the set of existing paths: if the path does not exist
it logs and returns (a no-op); otherwise it removes the path.  The
function returns nothing in Go — failures are only logged. -/
def DeleteFile (fs : List String) (fileName : String) : List String :=
  if fileName ∈ fs then fs.erase fileName else fs

/-! ## The HTTP handler (`CompileProgram`, package `compilers`) -/

/-- `CompilationReq` from `comphubTypes.go`, with validator tags
`Code: required`, `Language: required,oneof=js ts py go java rs kt cpp
c cs`. -/
structure CompilationReq where
  Code     : String
  Language : String
  StdInput : List String
deriving DecidableEq, Repr

/-- `CompilationRes` from `comphubTypes.go` (the `Timestamp time.Time`
field, real wall-clock time, is outside the embedding). -/
structure CompilationRes where
  Success : Bool
  Output  : String
  Error   : String
deriving DecidableEq, Repr

/-- The `oneof` set of the `Language` validator tag. -/
def validLanguages : List String :=
  ["js", "ts", "py", "go", "java", "rs", "kt", "cpp", "c", "cs"]

/-- The languages that have a `case` in `CompileProgram`'s `switch`
statement (each calling the corresponding `execute.ExecuteXX`). -/
def switchLanguages : List String := ["js", "c", "cpp", "go", "java"]

/-- Environment of one `CompileProgram` call: the JSON decode outcome,
the message the `validator` library would produce on a failed
validation (library-internal text, modelled opaquely), the
`utils.CreateFile` result, and the result/error pair the dispatched
`execute.ExecuteXX` call returns. -/
structure HandlerEnv where
  parseErr     : Option String
  validatorMsg : String
  createRes    : CreateFileRes
  execRes      : ExecutionRes
  execErr      : Option String
deriving DecidableEq, Repr

/-- Observable outcome of one `CompileProgram` call: the HTTP status
and body written, whether `utils.CreateFile` succeeded (a source file
exists on disk), whether `utils.DeleteFile` was reached before the
handler returned, and whether an `execute.ExecuteXX` call was made. -/
structure HandlerOutcome where
  status      : Nat
  res         : CompilationRes
  fileCreated : Bool
  fileDeleted : Bool
  execCalled  : Bool
deriving DecidableEq, Repr

/-- `CompileProgram(w, r)` (package `compilers`): decode, validate,
`utils.CreateFile`, dispatch on `req.Language` filling the local
`stdout`/`stderr` strings, then either a 400 `Execution error` response
(returning before `utils.DeleteFile`) or `utils.DeleteFile` followed by
a 200 success response.  The `java` case of the `switch` assigns
`stdout = compileRes.Error` on the non-error branch (source line
`stdout = compileRes.Error`), unlike every other case which assigns
`compileRes.Output`.  `fmt.Sprintf("Execution error: ", stderr)` has no
verb for its operand, so Go renders the extra operand as
`%!(EXTRA string=...)`. -/
def CompileProgram (req : CompilationReq) (henv : HandlerEnv) :
    HandlerOutcome :=
  match henv.parseErr with
  | some e =>
      ⟨400, ⟨false, "", "Parsing Error: " ++ e⟩, false, false, false⟩
  | none =>
  if req.Code = "" ∨ req.Language ∉ validLanguages then
    ⟨400, ⟨false, "", "Validation Error: " ++ henv.validatorMsg⟩,
      false, false, false⟩
  else if ¬ henv.createRes.Success then
    ⟨400, ⟨false, "", "Error in creating file: " ++ henv.createRes.Error⟩,
      false, false, false⟩
  else
    let dispatched := req.Language ∈ switchLanguages
    let pair : String × String :=
      if req.Language ∈ switchLanguages then
        if req.Language = "java" then
          match henv.execErr with
          | some _ => ("", henv.execRes.Error)
          | none   => (henv.execRes.Error, "")
        else
          match henv.execErr with
          | some _ => ("", henv.execRes.Error)
          | none   => (henv.execRes.Output, "")
      else ("", "")
    if pair.2 ≠ "" then
      ⟨400,
        ⟨false, "", "Execution error: %!(EXTRA string=" ++ pair.2 ++ ")"⟩,
        true, false, dispatched⟩
    else
      ⟨200, ⟨true, pair.1, ""⟩, true, true, dispatched⟩

/-! ## Concurrency structure of the run phase

Each execute function performs four I/O activities around the running
process.  The schedule below records, straight from the source layout,
in which order the statements occur and whether each runs on its own
goroutine (a `go func(){...}()` statement) or inline on the calling
goroutine.  A goroutine launched before the mainline continues runs
concurrently with the child process and with every later activity; two
mainline activities execute strictly one after the other. -/

/-- The four I/O activities of §4.3: write stdin, drain stdout, drain
stderr, wait for exit. -/
inductive IOActivity
  | stdinWrite
  | stdoutDrain
  | stderrDrain
  | waitExit
deriving DecidableEq, BEq, Repr

/-- Whether a statement runs on a spawned goroutine (`go func(){}`) or
inline on the calling goroutine. -/
inductive GoMode
  | goroutine
  | mainline
deriving DecidableEq, BEq, Repr

/-- `ExecuteJS` source order: the stdin writer is a `go func(){}`
(lines 48–56); `io.ReadAll(output)` (line 58), `io.ReadAll(stderr)`
(line 66) and `cmd.Wait()` (line 74) are sequential statements of the
calling goroutine. -/
def jsIOSchedule : List (IOActivity × GoMode) :=
  [(.stdinWrite, .goroutine), (.stdoutDrain, .mainline),
   (.stderrDrain, .mainline), (.waitExit, .mainline)]

/-- `ExecuteGo` source order: same layout as `ExecuteJS`
(goroutine stdin writer, then sequential `ReadAll`, `ReadAll`,
`Wait`). -/
def goIOSchedule : List (IOActivity × GoMode) :=
  [(.stdinWrite, .goroutine), (.stdoutDrain, .mainline),
   (.stderrDrain, .mainline), (.waitExit, .mainline)]

/-- `ExecuteCPP` run-phase source order: same layout (goroutine stdin
writer at lines 59–67, then sequential `ReadAll`, `ReadAll`, `Wait`). -/
def cppIOSchedule : List (IOActivity × GoMode) :=
  [(.stdinWrite, .goroutine), (.stdoutDrain, .mainline),
   (.stderrDrain, .mainline), (.waitExit, .mainline)]

/-- `ExecuteJava` run-phase source order: same layout (goroutine stdin
writer at lines 68–76, then sequential `ReadAll`, `ReadAll`, `Wait`). -/
def javaIOSchedule : List (IOActivity × GoMode) :=
  [(.stdinWrite, .goroutine), (.stdoutDrain, .mainline),
   (.stderrDrain, .mainline), (.waitExit, .mainline)]

/-- The mode under which activity `a` runs in schedule `s`. -/
def modeOf (s : List (IOActivity × GoMode)) (a : IOActivity) :
    Option GoMode :=
  (s.find? (fun p => p.1 == a)).map Prod.snd

/-- The position of activity `a` in schedule `s` (statement order). -/
def posOf (s : List (IOActivity × GoMode)) (a : IOActivity) : Nat :=
  s.findIdx (fun p => p.1 == a)

/-- Two activities of a schedule overlap in time iff at least one of
them is launched on its own goroutine; two mainline statements run
strictly one after the other. -/
def runsConcurrently (s : List (IOActivity × GoMode))
    (a b : IOActivity) : Prop :=
  modeOf s a = some GoMode.goroutine ∨ modeOf s b = some GoMode.goroutine

instance (s : List (IOActivity × GoMode)) (a b : IOActivity) :
    Decidable (runsConcurrently s a b) := by
  unfold runsConcurrently
  infer_instance

/-! ## Theorems -/

/-- The I/O layout every execute function actually has: the stdin
writer, being a spawned goroutine, runs concurrently with both drains
and with the wait; both drains precede the `cmd.Wait()` call; but the
two drains are mainline statements, stdout drained to EOF strictly
before the stderr drain begins, so they do not run concurrently with
each other. -/
def stageIOLayout (s : List (IOActivity × GoMode)) : Prop :=
  runsConcurrently s IOActivity.stdinWrite IOActivity.stdoutDrain ∧
  runsConcurrently s IOActivity.stdinWrite IOActivity.stderrDrain ∧
  runsConcurrently s IOActivity.stdinWrite IOActivity.waitExit ∧
  posOf s IOActivity.stdoutDrain < posOf s IOActivity.waitExit ∧
  posOf s IOActivity.stderrDrain < posOf s IOActivity.waitExit ∧
  ¬ runsConcurrently s IOActivity.stdoutDrain IOActivity.stderrDrain ∧
  posOf s IOActivity.stdoutDrain < posOf s IOActivity.stderrDrain

instance (s : List (IOActivity × GoMode)) : Decidable (stageIOLayout s) := by
  unfold stageIOLayout
  infer_instance

/-- C1, counterexample.  The claim says the three I/O activities run
concurrently with each other in every stage execution.  In all four
execute functions the stdout drain and the stderr drain are sequential
statements of the calling goroutine (`io.ReadAll(output)` runs to EOF
before `io.ReadAll(stderr)` starts), so those two activities do not run
concurrently with each other. -/
theorem C1_counterexample :
    ¬ runsConcurrently jsIOSchedule IOActivity.stdoutDrain
        IOActivity.stderrDrain ∧
    ¬ runsConcurrently goIOSchedule IOActivity.stdoutDrain
        IOActivity.stderrDrain ∧
    ¬ runsConcurrently cppIOSchedule IOActivity.stdoutDrain
        IOActivity.stderrDrain ∧
    ¬ runsConcurrently javaIOSchedule IOActivity.stdoutDrain
        IOActivity.stderrDrain := by
  decide

/-- C1, amended.  In every stage execution the stdin writer runs on its
own goroutine, concurrently with the process, with both drains and with
the exit wait; both stream drains complete before `cmd.Wait()`; but the
stdout and stderr drains run sequentially on the calling goroutine
(stdout fully drained first), not concurrently with each other. -/
theorem C1_amended :
    stageIOLayout jsIOSchedule ∧ stageIOLayout goIOSchedule ∧
    stageIOLayout cppIOSchedule ∧ stageIOLayout javaIOSchedule := by
  decide

/-- C2 (code bug).  A Java submission whose program runs successfully
and prints `hello\n`: `ExecuteJava` returns
`{Success: true, Error: "", Output: "hello\n"}`, but the `java` case of
`CompileProgram`'s switch assigns `stdout = compileRes.Error`, so the
200 response's output field is `""` — the Error field's content in
place of the captured stdout, which is dropped. -/
theorem C2_java_swaps_streams :
    (CompileProgram ⟨"public class Main {}", "java", []⟩
        ⟨none, "", ⟨true, "", "execution_zone/u.java"⟩,
          ⟨true, "", "hello\n"⟩, none⟩).res
      = ⟨true, "", ""⟩ ∧
    (⟨true, "", "hello\n"⟩ : ExecutionRes).Output ≠ "" := by
  exact ⟨by decide, by decide⟩

/-- C3 (code bug).  A JS submission whose run stage fails: the handler
returns the 400 `Execution error` response before ever reaching the
`utils.DeleteFile(createFileRes.Filename)` call (which sits only on the
success path), so the created source file survives the call
(`fileCreated = true`, `fileDeleted = false`).  The idempotence half of
the claim does hold of `DeleteFile`: deleting an absent path is a
no-op, and a double release equals a single one. -/
theorem C3_leak_on_failure :
    CompileProgram ⟨"while(1);", "js", []⟩
        ⟨none, "", ⟨true, "", "execution_zone/u.js"⟩,
          ⟨false, "boom", ""⟩, some "exit status 1"⟩
      = ⟨400, ⟨false, "", "Execution error: %!(EXTRA string=boom)"⟩,
          true, false, true⟩ ∧
    DeleteFile [] "execution_zone/u.js" = [] ∧
    DeleteFile (DeleteFile ["execution_zone/u.js"] "execution_zone/u.js")
        "execution_zone/u.js"
      = DeleteFile ["execution_zone/u.js"] "execution_zone/u.js" := by
  refine ⟨?_, ?_, ?_⟩ <;> decide

/-- C4, counterexample.  A run that hits the 10s deadline (the context
kills the process, `cmd.Wait` reports `signal: killed`) yields exactly
the same `ExecutionRes` as a run whose process was killed for any other
reason with the deadline never firing: `Success = false`,
`Error = "command execution failed: signal: killed"`, empty `Output`.
The result carries no `timedOut` marker and a timeout is not
distinguishable from a generic runtime kill; `ExecutionRes` has only
the fields `Success`, `Error`, `Output`. -/
theorem C4_counterexample :
    (⟨none, none, none, none, none, none, "partial", "", none, true⟩ :
        RunEnv).timedOut = true ∧
    (⟨none, none, none, none, none, none, "partial", "",
        some "signal: killed", false⟩ : RunEnv).timedOut = false ∧
    ExecuteJS "f.js" []
        ⟨none, none, none, none, none, none, "partial", "", none, true⟩
      = ExecuteJS "f.js" []
          ⟨none, none, none, none, none, none, "partial", "",
            some "signal: killed", false⟩ ∧
    (ExecuteJS "f.js" []
        ⟨none, none, none, none, none, none, "partial", "", none,
          true⟩).res
      = mkFail "command execution failed: signal: killed" := by
  refine ⟨rfl, rfl, ?_, ?_⟩ <;> decide

/-- C4, amended.  If a stage's deadline elapses before its process
exits, `exec.CommandContext` kills the top-level process and `cmd.Wait`
returns `signal: killed`; every execute function then returns a plain
failure whose `Error` is the formatted wait error and whose `Output` is
empty (partial buffered output is discarded).  No `timedOut` field
exists and no `Timeout` classification distinct from other runtime
failures is produced. -/
theorem C4_amended (f : String) (ins : List String) (env : RunEnv)
    (cenv : CompileEnv)
    (h1 : env.stdinPipeErr = none) (h2 : env.stdoutPipeErr = none)
    (h3 : env.stderrPipeErr = none) (h4 : env.startErr = none)
    (h5 : env.stdoutReadErr = none) (h6 : env.stderrReadErr = none)
    (ht : env.timedOut = true) (hc : cenv.compErr = none) :
    ExecuteJS f ins env
      = ⟨mkFail "command execution failed: signal: killed",
          some "signal: killed", [ProcEvent.runStart]⟩ ∧
    ExecuteGo f ins env
      = ⟨mkFail "Command execution failed: signal: killed",
          some "signal: killed", [ProcEvent.runStart]⟩ ∧
    ExecuteCPP f ins cenv env
      = ⟨mkFail "Command execution failed: signal: killed",
          some "signal: killed",
          [ProcEvent.compileSpawn, ProcEvent.runStart]⟩ ∧
    ExecuteJava f ins cenv env
      = ⟨mkFail "Command execution failed: signal: killed",
          some "signal: killed",
          [ProcEvent.compileSpawn, ProcEvent.runStart]⟩ := by
  rcases env with ⟨a, b, c, d, e, g, so, se, w, t⟩
  rcases cenv with ⟨ce, co⟩
  dsimp only at h1 h2 h3 h4 h5 h6 ht hc
  subst h1 h2 h3 h4 h5 h6 ht hc
  exact ⟨rfl, rfl, rfl, rfl⟩

/-- Witness for C4, amended: a concrete timed-out JS run. -/
theorem C4_amended_witness :
    ExecuteJS "w.js" []
        ⟨none, none, none, none, none, none, "some output", "", none,
          true⟩
      = ⟨mkFail "command execution failed: signal: killed",
          some "signal: killed", [ProcEvent.runStart]⟩ :=
  (C4_amended "w.js" []
      ⟨none, none, none, none, none, none, "some output", "", none, true⟩
      ⟨none, ""⟩ rfl rfl rfl rfl rfl rfl rfl rfl).1

/-- C5, counterexample.  The language `py` is accepted by the `oneof`
validator but has no case in `CompileProgram`'s switch — no execution
path.  The claim says such a submission fails with
`UnsupportedLanguage` and creates no workspace; instead the handler
creates the source file (`fileCreated = true`), spawns nothing
(`execCalled = false`), and answers 200 with `Success = true` and empty
output. -/
theorem C5_counterexample :
    CompileProgram ⟨"print(1)", "py", []⟩
        ⟨none, "", ⟨true, "", "execution_zone/v.py"⟩, ⟨false, "", ""⟩,
          none⟩
      = ⟨200, ⟨true, "", ""⟩, true, true, false⟩ := by
  decide

/-- C5, amended.  A language outside the validated `oneof` set is
rejected with a 400 `Validation Error` before any workspace is created;
a language inside the set but with no switch case (ts, py, rs, kt, cs)
gets a workspace created, no execute call, and a 200 success response
with empty output.  No `UnsupportedLanguage` classification exists. -/
theorem C5_amended :
    (∀ (req : CompilationReq) (henv : HandlerEnv),
        henv.parseErr = none → req.Language ∉ validLanguages →
        CompileProgram req henv
          = ⟨400,
              ⟨false, "", "Validation Error: " ++ henv.validatorMsg⟩,
              false, false, false⟩) ∧
    (∀ (req : CompilationReq) (henv : HandlerEnv),
        henv.parseErr = none → req.Code ≠ "" →
        req.Language ∈ validLanguages →
        req.Language ∉ switchLanguages →
        henv.createRes.Success = true →
        CompileProgram req henv
          = ⟨200, ⟨true, "", ""⟩, true, true, false⟩) := by
  constructor
  · intro req henv hp hl
    rcases henv with ⟨pe, vm, cr, er, ee⟩
    dsimp only at hp ⊢
    subst hp
    unfold CompileProgram
    simp [hl]
  · intro req henv hp hcode hl hns hcr
    rcases henv with ⟨pe, vm, cr, er, ee⟩
    dsimp only at hp hcr ⊢
    subst hp
    unfold CompileProgram
    simp [hcode, hl, hns, hcr]

/-- Witness for C5, amended: a rejected language (`rb`) and an accepted
language with no execution path (`py`), at concrete requests. -/
theorem C5_amended_witness :
    CompileProgram ⟨"puts 1", "rb", []⟩
        ⟨none, "field validation failed", ⟨false, "", ""⟩,
          ⟨false, "", ""⟩, none⟩
      = ⟨400,
          ⟨false, "",
            "Validation Error: " ++ "field validation failed"⟩,
          false, false, false⟩ ∧
    CompileProgram ⟨"print(2)", "py", []⟩
        ⟨none, "", ⟨true, "", "execution_zone/w.py"⟩, ⟨false, "", ""⟩,
          none⟩
      = ⟨200, ⟨true, "", ""⟩, true, true, false⟩ :=
  ⟨C5_amended.1 ⟨"puts 1", "rb", []⟩
      ⟨none, "field validation failed", ⟨false, "", ""⟩,
        ⟨false, "", ""⟩, none⟩ rfl (by decide),
   C5_amended.2 ⟨"print(2)", "py", []⟩
      ⟨none, "", ⟨true, "", "execution_zone/w.py"⟩, ⟨false, "", ""⟩,
        none⟩ rfl (by decide) (by decide) (by decide) rfl⟩

/-- `s.length = 0` exactly when `s` is the empty string; relates the
Go test `len(stderrBytes) > 0` to emptiness of the buffer. -/
theorem string_length_zero_iff (s : String) : s.length = 0 ↔ s = "" := by
  constructor
  · intro h
    apply String.ext
    exact List.length_eq_zero.mp h
  · intro h
    subst h
    rfl

/-- C6.  For every run stage that reaches classification (pipe setup,
start and stream reads succeeded, deadline did not fire, and for the
compiled languages the compile phase succeeded): the stage succeeds iff
`cmd.Wait` returned nil — i.e. the process exited with code 0 — and the
error-stream buffer is empty.  Any non-zero exit, or any non-empty
stderr content even on exit code 0, fails the stage. -/
theorem C6_run_success_iff (f : String) (ins : List String)
    (env : RunEnv) (cenv : CompileEnv)
    (h1 : env.stdinPipeErr = none) (h2 : env.stdoutPipeErr = none)
    (h3 : env.stderrPipeErr = none) (h4 : env.startErr = none)
    (h5 : env.stdoutReadErr = none) (h6 : env.stderrReadErr = none)
    (ht : env.timedOut = false) (hc : cenv.compErr = none) :
    ((ExecuteJS f ins env).res.Success = true ↔
      env.waitErr = none ∧ env.stderrBytes = "") ∧
    ((ExecuteGo f ins env).res.Success = true ↔
      env.waitErr = none ∧ env.stderrBytes = "") ∧
    ((ExecuteCPP f ins cenv env).res.Success = true ↔
      env.waitErr = none ∧ env.stderrBytes = "") ∧
    ((ExecuteJava f ins cenv env).res.Success = true ↔
      env.waitErr = none ∧ env.stderrBytes = "") := by
  rcases env with ⟨a, b, c, d, e, g, so, se, w, t⟩
  rcases cenv with ⟨ce, co⟩
  dsimp only at h1 h2 h3 h4 h5 h6 ht hc ⊢
  subst h1 h2 h3 h4 h5 h6 ht hc
  unfold ExecuteJS ExecuteGo ExecuteCPP ExecuteJava waitErrOf
  cases w with
  | some e2 => simp [mkFail]
  | none =>
    rcases Nat.eq_zero_or_pos se.length with hz | hp
    · have hse : se = "" := (string_length_zero_iff se).mp hz
      subst hse
      simp [mkFail]
    · have hne : se ≠ "" := by
        intro h
        have h0 : se.length = 0 := (string_length_zero_iff se).mpr h
        omega
      simp [mkFail, hp, hne]

/-- Witness for C6: a concrete clean run (exit 0, empty stderr). -/
theorem C6_run_success_iff_witness :
    (ExecuteJS "w6.js" []
        ⟨none, none, none, none, none, none, "ok\n", "", none,
          false⟩).res.Success = true ↔
      (none : Option String) = none ∧ ("" : String) = "" :=
  (C6_run_success_iff "w6.js" []
      ⟨none, none, none, none, none, none, "ok\n", "", none, false⟩
      ⟨none, ""⟩ rfl rfl rfl rfl rfl rfl rfl rfl).1

/-- C7.  For the compiled languages, a compile-phase failure
short-circuits the run stage: the result has `Success = false`, the
only process event is the compile spawn (`runStart` never happens), and
the error message carries the compiler's `CombinedOutput` — both
streams.  (`ExecuteCPP` prefixes it with the Go error text,
`ExecuteJava` with `Compilation failed: `.) -/
theorem C7_compile_failure_short_circuits (f : String)
    (ins : List String) (cenv : CompileEnv) (renv : RunEnv) (e : String)
    (hc : cenv.compErr = some e) :
    ((ExecuteCPP f ins cenv renv).res.Success = false ∧
     (ExecuteCPP f ins cenv renv).events = [ProcEvent.compileSpawn] ∧
     ProcEvent.runStart ∉ (ExecuteCPP f ins cenv renv).events ∧
     (ExecuteCPP f ins cenv renv).res.Error
       = "Compilation Failed :" ++ e ++ "\n" ++ cenv.compOut) ∧
    ((ExecuteJava f ins cenv renv).res.Success = false ∧
     (ExecuteJava f ins cenv renv).events = [ProcEvent.compileSpawn] ∧
     ProcEvent.runStart ∉ (ExecuteJava f ins cenv renv).events ∧
     (ExecuteJava f ins cenv renv).res.Error
       = "Compilation failed: " ++ cenv.compOut) := by
  rcases cenv with ⟨ce, co⟩
  dsimp only at hc
  subst hc
  exact
    ⟨⟨rfl, rfl, show ProcEvent.runStart ∉ [ProcEvent.compileSpawn] by
        decide, rfl⟩,
     ⟨rfl, rfl, show ProcEvent.runStart ∉ [ProcEvent.compileSpawn] by
        decide, rfl⟩⟩

/-- Witness for C7: a concrete C submission with a compile diagnostic;
the run stage is never spawned. -/
theorem C7_witness :
    (ExecuteCPP "x.cpp" [] ⟨some "exit status 1", "x.cpp:1:1: error"⟩
        ⟨none, none, none, none, none, none, "", "", none,
          false⟩).events
      = [ProcEvent.compileSpawn] :=
  ((C7_compile_failure_short_circuits "x.cpp" []
      ⟨some "exit status 1", "x.cpp:1:1: error"⟩
      ⟨none, none, none, none, none, none, "", "", none, false⟩
      "exit status 1" rfl).1).2.1

/-- The filesystem paths processing one C++ submission writes: the
source file `utils.CreateFile` materializes
(`execution_zone/<uuid>.cpp`, `part_005` lines 32–35) and the build
artifact the compile stage writes (`g++ -o execution_zone/exec_binary`,
`executeCPP.go` lines 17–18). -/
def cppWorkspacePaths (uuid code : String) : List String :=
  [(CreateFile uuid code "cpp" true true).Filename, cppExecutable]

/-- C8, counterexample.  Two C++ submissions with distinct generated
UUIDs (`u1`, `u2` stand for the two `uuid.NewString()` results): their
source files are distinct, but both workspaces contain the fixed build
artifact path `execution_zone/exec_binary` — the two submissions write
the same filesystem path, so the workspaces are not disjoint. -/
theorem C8_counterexample :
    ("u1" : String) ≠ "u2" ∧
    cppExecutable ∈ cppWorkspacePaths "u1" "int main(){}" ∧
    cppExecutable ∈ cppWorkspacePaths "u2" "int main(){return 1;}" ∧
    (CreateFile "u1" "int main(){}" "cpp" true true).Filename
      ≠ (CreateFile "u2" "int main(){return 1;}" "cpp" true
          true).Filename := by
  refine ⟨by decide, ?_, ?_, by decide⟩ <;> decide

/-- C8, amended.  Source files are written to
`execution_zone/<uuid>.<language>` and are distinct whenever the
generated UUIDs differ; but the C++ compile stage writes its build
artifact to the fixed path `execution_zone/exec_binary`, the same for
every C++ submission, so C++ workspaces are not pairwise disjoint. -/
theorem C8_amended :
    (∀ (u₁ u₂ c₁ c₂ l : String), u₁ ≠ u₂ →
        (CreateFile u₁ c₁ l true true).Filename
          ≠ (CreateFile u₂ c₂ l true true).Filename) ∧
    (∀ (u c : String), cppExecutable ∈ cppWorkspacePaths u c) := by
  constructor
  · intro u₁ u₂ c₁ c₂ l hne heq
    apply hne
    dsimp only [CreateFile] at heq
    simp only [decide_True, not_true_eq_false, if_false, ite_false] at heq
    have hd := congrArg String.data heq
    simp only [String.data_append] at hd
    have h1 := List.append_cancel_right hd
    have h2 := List.append_cancel_right h1
    have h3 := List.append_cancel_left h2
    exact String.ext h3
  · intro u c
    simp [cppWorkspacePaths]

/-- Witness for C8, amended: two concrete submissions. -/
theorem C8_amended_witness :
    (CreateFile "u1" "codeA" "cpp" true true).Filename
      ≠ (CreateFile "u2" "codeB" "cpp" true true).Filename ∧
    cppExecutable ∈ cppWorkspacePaths "u1" "codeA" :=
  ⟨C8_amended.1 "u1" "u2" "codeA" "codeB" "cpp" (by decide),
   C8_amended.2 "u1" "codeA"⟩

/-- C9, counterexample.  When the toolchain binary is missing
(`CombinedOutput` returns `exec.ErrNotFound` with empty output), the
execute functions report it through the compilation-failure branch:
`ExecuteCPP` answers `Compilation Failed :exec: "g++": executable file
not found in $PATH`, `ExecuteJava` answers the bare
`Compilation failed: ` message.  There is no `InternalError`
classification distinguishing the environment defect from a fault in
the submitted program. -/
theorem C9_counterexample :
    (ExecuteCPP "x.cpp" []
        ⟨some "exec: \"g++\": executable file not found in $PATH", ""⟩
        ⟨none, none, none, none, none, none, "", "", none, false⟩).res
      = mkFail
          "Compilation Failed :exec: \"g++\": executable file not found in $PATH\n" ∧
    (ExecuteJava "Main.java" []
        ⟨some "exec: \"javac\": executable file not found in $PATH", ""⟩
        ⟨none, none, none, none, none, none, "", "", none, false⟩).res
      = mkFail "Compilation failed: " := by
  exact ⟨by decide, by decide⟩

/-- C9, amended.  Any error of the compile command's `CombinedOutput`
— a missing toolchain binary exactly as a source-code diagnostic — is
reported through the single compilation-failure branch, with the
`Compilation Failed`-style message; the codebase has no `InternalError`
classification and does not treat a missing toolchain differently. -/
theorem C9_amended (f : String) (ins : List String) (cenv : CompileEnv)
    (renv : RunEnv) (m : String) (hc : cenv.compErr = some m) :
    ExecuteCPP f ins cenv renv
      = ⟨mkFail ("Compilation Failed :" ++ m ++ "\n" ++ cenv.compOut),
          some m, [ProcEvent.compileSpawn]⟩ ∧
    ExecuteJava f ins cenv renv
      = ⟨mkFail ("Compilation failed: " ++ cenv.compOut), some m,
          [ProcEvent.compileSpawn]⟩ := by
  rcases cenv with ⟨ce, co⟩
  dsimp only at hc
  subst hc
  exact ⟨rfl, rfl⟩

/-- Witness for C9, amended: the missing-`g++` lookup error at a
concrete call. -/
theorem C9_amended_witness :
    ExecuteCPP "y.cpp" []
        ⟨some "exec: \"g++\": executable file not found in $PATH", "x"⟩
        ⟨none, none, none, none, none, none, "", "", none, false⟩
      = ⟨mkFail ("Compilation Failed :"
            ++ "exec: \"g++\": executable file not found in $PATH"
            ++ "\n" ++ "x"),
          some "exec: \"g++\": executable file not found in $PATH",
          [ProcEvent.compileSpawn]⟩ :=
  (C9_amended "y.cpp" []
      ⟨some "exec: \"g++\": executable file not found in $PATH", "x"⟩
      ⟨none, none, none, none, none, none, "", "", none, false⟩
      "exec: \"g++\": executable file not found in $PATH" rfl).1

/-- Every return of `ExecuteJS` couples the Go error with the result:
the error is non-nil exactly on failure, and the success result carries
the full captured stdout with an empty `Error` field. -/
theorem executeJS_invariants (f : String) (ins : List String)
    (env : RunEnv) :
    ((ExecuteJS f ins env).goErr.isSome
        ↔ (ExecuteJS f ins env).res.Success = false) ∧
    ((ExecuteJS f ins env).res.Success = true →
      (ExecuteJS f ins env).res.Output = env.stdoutBytes ∧
      (ExecuteJS f ins env).res.Error = "") := by
  rcases env with ⟨a, b, c, d, e, g, so, se, w, t⟩
  unfold ExecuteJS waitErrOf
  cases a <;> cases b <;> cases c <;> cases d <;> cases e <;> cases g
    <;> cases w <;> cases t <;> simp [mkFail] <;> split <;> simp [mkFail]

/-- Every return of `ExecuteGo` couples the Go error with the result
the same way `ExecuteJS` does. -/
theorem executeGo_invariants (f : String) (ins : List String)
    (env : RunEnv) :
    ((ExecuteGo f ins env).goErr.isSome
        ↔ (ExecuteGo f ins env).res.Success = false) ∧
    ((ExecuteGo f ins env).res.Success = true →
      (ExecuteGo f ins env).res.Output = env.stdoutBytes ∧
      (ExecuteGo f ins env).res.Error = "") := by
  rcases env with ⟨a, b, c, d, e, g, so, se, w, t⟩
  unfold ExecuteGo waitErrOf
  cases a <;> cases b <;> cases c <;> cases d <;> cases e <;> cases g
    <;> cases w <;> cases t <;> simp [mkFail] <;> split <;> simp [mkFail]

/-- Every return of `ExecuteCPP` couples the Go error with the result
the same way, across both the compile and the run phase. -/
theorem executeCPP_invariants (f : String) (ins : List String)
    (cenv : CompileEnv) (env : RunEnv) :
    ((ExecuteCPP f ins cenv env).goErr.isSome
        ↔ (ExecuteCPP f ins cenv env).res.Success = false) ∧
    ((ExecuteCPP f ins cenv env).res.Success = true →
      (ExecuteCPP f ins cenv env).res.Output = env.stdoutBytes ∧
      (ExecuteCPP f ins cenv env).res.Error = "") := by
  rcases env with ⟨a, b, c, d, e, g, so, se, w, t⟩
  rcases cenv with ⟨ce, co⟩
  unfold ExecuteCPP waitErrOf
  cases ce <;> cases a <;> cases b <;> cases c <;> cases d <;> cases e
    <;> cases g <;> cases w <;> cases t <;> simp [mkFail] <;> split
    <;> simp [mkFail]

/-- Every return of `ExecuteJava` couples the Go error with the result
the same way, across both the compile and the run phase. -/
theorem executeJava_invariants (f : String) (ins : List String)
    (cenv : CompileEnv) (env : RunEnv) :
    ((ExecuteJava f ins cenv env).goErr.isSome
        ↔ (ExecuteJava f ins cenv env).res.Success = false) ∧
    ((ExecuteJava f ins cenv env).res.Success = true →
      (ExecuteJava f ins cenv env).res.Output = env.stdoutBytes ∧
      (ExecuteJava f ins cenv env).res.Error = "") := by
  rcases env with ⟨a, b, c, d, e, g, so, se, w, t⟩
  rcases cenv with ⟨ce, co⟩
  unfold ExecuteJava waitErrOf
  cases ce <;> cases a <;> cases b <;> cases c <;> cases d <;> cases e
    <;> cases g <;> cases w <;> cases t <;> simp [mkFail] <;> split
    <;> simp [mkFail]

/-- C10.  For every execute function and every input: the returned Go
error is non-nil iff the returned `ExecutionRes` has
`Success = false`; and whenever `Success` is true, `Output` equals the
full captured stdout and `Error` is empty. -/
theorem C10_error_success_coupling (f : String) (ins : List String)
    (env : RunEnv) (cenv : CompileEnv) :
    (((ExecuteJS f ins env).goErr.isSome
        ↔ (ExecuteJS f ins env).res.Success = false) ∧
     ((ExecuteJS f ins env).res.Success = true →
       (ExecuteJS f ins env).res.Output = env.stdoutBytes ∧
       (ExecuteJS f ins env).res.Error = "")) ∧
    (((ExecuteGo f ins env).goErr.isSome
        ↔ (ExecuteGo f ins env).res.Success = false) ∧
     ((ExecuteGo f ins env).res.Success = true →
       (ExecuteGo f ins env).res.Output = env.stdoutBytes ∧
       (ExecuteGo f ins env).res.Error = "")) ∧
    (((ExecuteCPP f ins cenv env).goErr.isSome
        ↔ (ExecuteCPP f ins cenv env).res.Success = false) ∧
     ((ExecuteCPP f ins cenv env).res.Success = true →
       (ExecuteCPP f ins cenv env).res.Output = env.stdoutBytes ∧
       (ExecuteCPP f ins cenv env).res.Error = "")) ∧
    (((ExecuteJava f ins cenv env).goErr.isSome
        ↔ (ExecuteJava f ins cenv env).res.Success = false) ∧
     ((ExecuteJava f ins cenv env).res.Success = true →
       (ExecuteJava f ins cenv env).res.Output = env.stdoutBytes ∧
       (ExecuteJava f ins cenv env).res.Error = "")) :=
  ⟨executeJS_invariants f ins env, executeGo_invariants f ins env,
   executeCPP_invariants f ins cenv env,
   executeJava_invariants f ins cenv env⟩

/-- Witness for C10: a concrete clean JS run. -/
theorem C10_witness :
    (ExecuteJS "w10.js" []
        ⟨none, none, none, none, none, none, "out\n", "", none,
          false⟩).goErr.isSome
      ↔ (ExecuteJS "w10.js" []
          ⟨none, none, none, none, none, none, "out\n", "", none,
            false⟩).res.Success = false :=
  (C10_error_success_coupling "w10.js" []
      ⟨none, none, none, none, none, none, "out\n", "", none, false⟩
      ⟨none, ""⟩).1.1

end Coderunner
